import Mathlib

/-!
Shallow embedding of `metar.py`: a METAR LED-map renderer.

The embedding translates the script's pure logic into Lean definitions:
  * the safe normalizer helpers (`safe_text`, `safe_int`, `safe_float`),
    with Python `float(...)` modelled by `pyParseFloat` over `ℚ` plus the
    special values `inf`/`-inf`/`nan`, Python's one-argument `round`
    modelled by `roundHalfEven`, and the `try/except (ValueError,
    TypeError)` blocks modelled with `Except PyErr`;
  * the lightning heuristic over the raw report text (`lightningHeuristic`,
    with Python `str.find(sub, 4)` modelled by `pyFindL`);
  * the station registry (placeholder synthesis and station-list build,
    `registryStep` / `registry`), with `datetime.datetime.now()` at build
    time passed in as an abstract `now : Nat`;
  * the per-tick decision engine (`ledColor`) and its derived flags;
  * the scheduler's loop bound (`looplimit`), the per-tick pixel writes of
    the station loop (`stationWrites`) and of the legend (`legendWrites`),
    and the first tick of the external-display rotation
    (`firstTickDisplayAccess`).
-/

/-- An RGB color triple, as the Python code's `(r,g,b)` tuples. -/
structure RGB where
  r : Nat
  g : Nat
  b : Nat
deriving DecidableEq, Repr

def COLOR_VFR : RGB := ⟨255, 0, 0⟩
def COLOR_VFR_FADE : RGB := ⟨125, 0, 0⟩
def COLOR_MVFR : RGB := ⟨0, 0, 255⟩
def COLOR_MVFR_FADE : RGB := ⟨0, 0, 125⟩
def COLOR_IFR : RGB := ⟨0, 255, 0⟩
def COLOR_IFR_FADE : RGB := ⟨0, 125, 0⟩
def COLOR_LIFR : RGB := ⟨0, 125, 125⟩
def COLOR_LIFR_FADE : RGB := ⟨0, 75, 75⟩
def COLOR_CLEAR : RGB := ⟨0, 0, 0⟩
def COLOR_LIGHTNING : RGB := ⟨255, 255, 255⟩
def COLOR_HIGH_WINDS : RGB := ⟨255, 255, 0⟩
def COLOR_NONE : RGB := ⟨64, 64, 64⟩

/-- One sky-condition layer: cover code and cloud base in feet AGL
(`{"cover": ..., "cloudBaseFt": ...}` in the Python dict). -/
structure SkyCond where
  cover : String
  cloudBaseFt : Int
deriving DecidableEq, Repr

/-- One per-station record, mirroring the Python `conditionDict` entry
built in the METAR parse loop (fields in source order).  `obsTime` is an
abstract timestamp (`datetime` values are opaque to the core logic). -/
structure StationCondition where
  flightCategory : String
  windDir : String
  windSpeed : Int
  windGustSpeed : Int
  windGust : Bool
  vis : Int
  obs : String
  tempC : Int
  dewpointC : Int
  altimHg : ℚ
  lightning : Bool
  skyConditions : List SkyCond
  obsTime : Nat
deriving DecidableEq, Repr

/-- The script's configuration constants, made explicit (the source marks
them as the user-editable configuration block). -/
structure Config where
  ledCount : Nat
  airports : List String
  displayairports : Option (List String)
  activateWindAnimation : Bool
  activateLightningAnimation : Bool
  fadeInsteadOfBlink : Bool
  windBlinkThreshold : Int
  highWindsThreshold : Int
  alwaysBlinkForGusts : Bool
  blinkSpeed : ℚ
  blinkTotalTime : ℚ
  activateExternalDisplay : Bool
  displayRotationSpeed : ℚ
  showLegend : Bool
  offsetLegendBy : Nat
deriving DecidableEq, Repr

/-! ## Decision engine (main-loop color selection, lines 275–329) -/

/-- `windy = True if (ACTIVATE_WINDCONDITION_ANIMATION and windCycle == True
and (conditions["windSpeed"] >= WIND_BLINK_THRESHOLD or
conditions["windGust"] == True)) else False` (line 286). -/
def windyFlag (cfg : Config) (c : StationCondition) (windCycle : Bool) : Bool :=
  cfg.activateWindAnimation && windCycle &&
    (decide (cfg.windBlinkThreshold ≤ c.windSpeed) || c.windGust)

/-- `highWinds = True if (windy and HIGH_WINDS_THRESHOLD != -1 and
(conditions["windSpeed"] >= HIGH_WINDS_THRESHOLD or
conditions["windGustSpeed"] >= HIGH_WINDS_THRESHOLD)) else False` (line 287). -/
def highWindsFlag (cfg : Config) (c : StationCondition) (windCycle : Bool) : Bool :=
  windyFlag cfg c windCycle && (cfg.highWindsThreshold != -1) &&
    (decide (cfg.highWindsThreshold ≤ c.windSpeed) ||
     decide (cfg.highWindsThreshold ≤ c.windGustSpeed))

/-- `lightningConditions = True if (ACTIVATE_LIGHTNING_ANIMATION and
windCycle == False and conditions["lightning"] == True) else False` (line 288). -/
def lightningCondFlag (cfg : Config) (c : StationCondition) (windCycle : Bool) : Bool :=
  cfg.activateLightningAnimation && !windCycle && c.lightning

/-- The per-slot color selection of the main loop (lines 275–329):
`conditions = conditionDict.get(airportcode, None)` may be `None`
(`color` stays `COLOR_CLEAR`), the `"NONE"` category short-circuits to
`COLOR_NONE`, and otherwise the `fc == "VFR" / "MVFR" / "IFR" / "LIFR"`
chain picks lightning / high-winds / windy / base per category, with the
final `else` giving `COLOR_CLEAR`. -/
def ledColor (cfg : Config) (conditions : Option StationCondition) (windCycle : Bool) : RGB :=
  match conditions with
  | none => COLOR_CLEAR
  | some c =>
    if c.flightCategory = "NONE" then COLOR_NONE
    else
      let windy := windyFlag cfg c windCycle
      let highWinds := highWindsFlag cfg c windCycle
      let lightningConditions := lightningCondFlag cfg c windCycle
      let fc := c.flightCategory
      if fc = "VFR" then
        if lightningConditions then COLOR_LIGHTNING
        else if highWinds then COLOR_HIGH_WINDS
        else if windy then (if cfg.fadeInsteadOfBlink then COLOR_VFR_FADE else COLOR_CLEAR)
        else COLOR_VFR
      else if fc = "MVFR" then
        if lightningConditions then COLOR_LIGHTNING
        else if highWinds then COLOR_HIGH_WINDS
        else if windy then (if cfg.fadeInsteadOfBlink then COLOR_MVFR_FADE else COLOR_CLEAR)
        else COLOR_MVFR
      else if fc = "IFR" then
        if lightningConditions then COLOR_LIGHTNING
        else if highWinds then COLOR_HIGH_WINDS
        else if windy then (if cfg.fadeInsteadOfBlink then COLOR_IFR_FADE else COLOR_CLEAR)
        else COLOR_IFR
      else if fc = "LIFR" then
        if lightningConditions then COLOR_LIGHTNING
        else if highWinds then COLOR_HIGH_WINDS
        else if windy then (if cfg.fadeInsteadOfBlink then COLOR_LIFR_FADE else COLOR_CLEAR)
        else COLOR_LIFR
      else COLOR_CLEAR

/-! Specification-side restatement of the decision engine, written from the
spec's factored description ("lightning color if lightningActive; else the
high-wind color if highWinds; else the category's fade color ... if windy;
else the category's base color"), to be compared with `ledColor`. -/

/-- Spec-side base-color table for the recognized categories. -/
def baseColor : String → RGB
  | "VFR" => COLOR_VFR
  | "MVFR" => COLOR_MVFR
  | "IFR" => COLOR_IFR
  | "LIFR" => COLOR_LIFR
  | _ => COLOR_CLEAR

/-- Spec-side fade-color table for the recognized categories. -/
def fadeColorOf : String → RGB
  | "VFR" => COLOR_VFR_FADE
  | "MVFR" => COLOR_MVFR_FADE
  | "IFR" => COLOR_IFR_FADE
  | "LIFR" => COLOR_LIFR_FADE
  | _ => COLOR_CLEAR

/-- Spec-side color selection (the claim's factored priority chain, over
the same derived flags, whose defining formulas the spec restates
verbatim). -/
def specColor (cfg : Config) (c : StationCondition) (windCycle : Bool) : RGB :=
  if lightningCondFlag cfg c windCycle then COLOR_LIGHTNING
  else if highWindsFlag cfg c windCycle then COLOR_HIGH_WINDS
  else if windyFlag cfg c windCycle then
    (if cfg.fadeInsteadOfBlink then fadeColorOf c.flightCategory else COLOR_CLEAR)
  else baseColor c.flightCategory

/-! ## Field normalizer (safe helpers, lines 21–39)

A raw XML field is `Option (Option String)`: `none` models an absent
element (`metar.find(...)` returned `None`), `some none` an element whose
`.text` is `None`, and `some (some t)` an element with text `t`.

Python `float(s)` on a string is modelled by `pyParseFloat`: optional
surrounding whitespace, optional sign, then either a decimal literal
(digits, optional fraction, optional exponent) mapped into `ℚ`, or the
special literals `inf` / `infinity` / `nan` (case-insensitive).  Digit
group separators (`_`) and overflow of huge decimal literals to infinity
are not modelled.  Python's one-argument `round` on a finite value is
round-half-to-even (`roundHalfEven`); on `inf` it raises `OverflowError`
and on `nan` it raises `ValueError`. -/

/-- The Python float value space: a finite value (exact, as `ℚ`) or one of
the special values. -/
inductive PyFloat where
  | finite : ℚ → PyFloat
  | inf : PyFloat
  | negInf : PyFloat
  | nan : PyFloat
deriving DecidableEq, Repr

/-- The exceptions relevant to the safe helpers. -/
inductive PyErr where
  | valueError : PyErr
  | typeError : PyErr
  | overflowError : PyErr
deriving DecidableEq, Repr

/-- Take leading decimal digits off a character list, returning their
values and the rest. -/
def takeDigits : List Char → List Nat × List Char
  | [] => ([], [])
  | c :: rest =>
    if c.isDigit then
      let (ds, r) := takeDigits rest
      ((c.toNat - 48) :: ds, r)
    else ([], c :: rest)

/-- Digit list to the natural number it denotes (most significant first). -/
def digitsToNat (ds : List Nat) : Nat :=
  ds.foldl (fun a d => a * 10 + d) 0

/-- Parse the digits of an exponent (after `e`/`E` and optional sign),
applying it to the mantissa `mnum / mden`; `sgn` is the exponent's sign.
Fails on no digits or trailing junk.  (The rational is assembled with
`mkRat` from explicit numerator/denominator arithmetic.) -/
def parseExpDigits (mnum : Int) (mden : Nat) (sgn : Int) (r : List Char) : Option ℚ :=
  let (ds, rest) := takeDigits r
  if ds.isEmpty || !rest.isEmpty then none
  else
    let e := digitsToNat ds
    if 0 ≤ sgn then some (mkRat (mnum * ((10 : Nat) ^ e : Nat)) mden)
    else some (mkRat mnum (mden * 10 ^ e))

/-- Parse an optional exponent part after the mantissa `mnum / mden`. -/
def parseExp (mnum : Int) (mden : Nat) : List Char → Option ℚ
  | [] => some (mkRat mnum mden)
  | c :: r2 =>
    if c = 'e' || c = 'E' then
      match r2 with
      | '+' :: r3 => parseExpDigits mnum mden 1 r3
      | '-' :: r3 => parseExpDigits mnum mden (-1) r3
      | r3 => parseExpDigits mnum mden 1 r3
    else none

/-- Parse an unsigned decimal literal (`digits`, `digits.digits`,
`.digits`, `digits.`, each with an optional exponent) into `ℚ`. -/
def parseDecimal (s : List Char) : Option ℚ :=
  let (ip, r1) := takeDigits s
  match r1 with
  | '.' :: r2 =>
    let (fp, r3) := takeDigits r2
    if ip.isEmpty && fp.isEmpty then none
    else
      parseExp ((digitsToNat ip * 10 ^ fp.length + digitsToNat fp : Nat) : Int)
        ((10 : Nat) ^ fp.length) r3
  | _ => if ip.isEmpty then none else parseExp ((digitsToNat ip : Nat) : Int) 1 r1

/-- Strip leading and trailing whitespace from a character list. -/
def stripWs (s : List Char) : List Char :=
  ((s.dropWhile Char.isWhitespace).reverse.dropWhile Char.isWhitespace).reverse

/-- Model of Python `float(s)` for a string argument: `none` means it
raises `ValueError`. -/
def pyParseFloat (s : String) : Option PyFloat :=
  let t := stripWs s.data
  let (sgn, t2) : Int × List Char :=
    match t with
    | '+' :: r => (1, r)
    | '-' :: r => (-1, r)
    | _ => (1, t)
  let low := t2.map Char.toLower
  if low = "inf".data || low = "infinity".data then
    some (if sgn = 1 then PyFloat.inf else PyFloat.negInf)
  else if low = "nan".data then some PyFloat.nan
  else
    match parseDecimal t2 with
    | some q => some (PyFloat.finite (if 0 ≤ sgn then q else mkRat (-q.num) q.den))
    | none => none

/-- Python's banker's rounding (one-argument `round`) on an exact value:
round to the nearest integer, ties to the even one.  The fractional part
`q - ⌊q⌋ = (q.num - ⌊q⌋·q.den) / q.den` is compared with `1/2` by integer
arithmetic on numerator and denominator. -/
def roundHalfEven (q : ℚ) : Int :=
  let f := q.floor
  let twice := 2 * (q.num - f * (q.den : Int))
  if twice < (q.den : Int) then f
  else if (q.den : Int) < twice then f + 1
  else if f % 2 = 0 then f else f + 1

/-- `float(s)` as a fallible computation (`ValueError` on parse failure). -/
def pyFloatFn (s : String) : Except PyErr PyFloat :=
  match pyParseFloat s with
  | some f => Except.ok f
  | none => Except.error PyErr.valueError

/-- One-argument `round` on a float: `OverflowError` on `±inf`,
`ValueError` on `nan` (neither is caught resp. the former is not caught by
`except (ValueError, TypeError)` in `safe_int`). -/
def pyRoundToInt : PyFloat → Except PyErr Int
  | PyFloat.finite q => Except.ok (roundHalfEven q)
  | PyFloat.inf => Except.error PyErr.overflowError
  | PyFloat.negInf => Except.error PyErr.overflowError
  | PyFloat.nan => Except.error PyErr.valueError

/-- `safe_text(element, default)` (lines 21–25): the element's text when
present and non-`None`, else the default. -/
def safe_text (element : Option (Option String)) (default : String) : String :=
  match element with
  | some (some t) => t
  | _ => default

/-- `safe_int(element, default)` (lines 27–32): `int(round(float(
safe_text(element, str(default)))))` with `except (ValueError, TypeError)`
returning the default.  `str(default)` for an integer default is its
decimal rendering (`toString`).  An uncaught exception (`OverflowError`
from `round` on an infinite value) is returned as `Except.error`. -/
def safe_int (element : Option (Option String)) (default : Int) : Except PyErr Int :=
  match (pyFloatFn (safe_text element (toString default))).bind pyRoundToInt with
  | Except.ok n => Except.ok n
  | Except.error PyErr.valueError => Except.ok default
  | Except.error PyErr.typeError => Except.ok default
  | Except.error e => Except.error e

/-- `safe_float(element, default)` (lines 34–39): `float(safe_text(element,
str(default)))` with `except (ValueError, TypeError)` returning the
default.  `float` on a string raises only `ValueError`, which is caught,
so this helper is total.  When the element is absent, `float(str(default))
= default` (Python's float-to-string round trip is exact), so the absent
branch returns the default directly. -/
def safe_float (element : Option (Option String)) (default : PyFloat) : PyFloat :=
  match element with
  | some (some t) =>
    match pyParseFloat t with
    | some f => f
    | none => default
  | _ => default

/-! ## Lightning heuristic (lines 206–207) -/

/-- Model of Python `s.find(sub, start)` on character lists: the smallest
index `i ≥ start` at which `sub` occurs as a contiguous substring of `s`,
or `-1` if there is none. -/
def pyFindL (s sub : List Char) (start : Nat) : Int :=
  match (List.range (s.length + 1)).find?
      (fun i => decide (start ≤ i) && sub.isPrefixOf (s.drop i)) with
  | some i => (i : Int)
  | none => -1

/-- `lightning = False if ((rawText.find('LTG', 4) == -1 and
rawText.find('TS', 4) == -1) or rawText.find('TSNO', 4) != -1) else True`
(line 207). -/
def lightningHeuristic (rawText : String) : Bool :=
  let s := rawText.data
  !((pyFindL s "LTG".data 4 == -1 && pyFindL s "TS".data 4 == -1) ||
    pyFindL s "TSNO".data 4 != -1)

/-- `sub` occurs as a contiguous substring of `s` at some index `≥ start`
(the spec's "occurs at some index ≥ 4" reading). -/
def OccursFrom (s sub : List Char) (start : Nat) : Prop :=
  ∃ i, start ≤ i ∧ sub <+: s.drop i

/-! ## Station registry (capacity check line 147, placeholder loop
lines 231–251) -/

/-- The placeholder record synthesized for a configured airport absent
from the fetch (lines 235–249); `now` is the build-time clock value. -/
def placeholder (now : Nat) : StationCondition :=
  { flightCategory := "NONE"
    windDir := ""
    windSpeed := 0
    windGustSpeed := 0
    windGust := false
    vis := 0
    obs := ""
    tempC := 0
    dewpointC := 0
    altimHg := 0
    lightning := false
    skyConditions := []
    obsTime := now }

/-- Association-list lookup, first match wins (models Python dict lookup;
keys are inserted at most once, so first match is the only match). -/
def dictLookup : List (String × StationCondition) → String → Option StationCondition
  | [], _ => none
  | (k, v) :: rest, key => if k = key then some v else dictLookup rest key

/-- `stationId` is eligible for the secondary display:
`displayairports is None or stationId in displayairports` (lines 227, 250). -/
def eligibleForDisplay (displayairports : Option (List String)) (stationId : String) : Bool :=
  match displayairports with
  | none => true
  | some da => da.contains stationId

/-- The station list contributed by the fetched reports, in feed order
(line 227–228: each parsed METAR's station id is appended when eligible). -/
def fetchedStationList (fetched : List (String × StationCondition))
    (displayairports : Option (List String)) : List String :=
  (fetched.map Prod.fst).filter (eligibleForDisplay displayairports)

/-- The placeholder-synthesis loop (lines 231–251): walk the configured
airport list; skip `"NULL"` markers; for an airport not yet in the
dictionary, append the placeholder record and, when eligible, the station
id at the end of the station list. -/
def registryStep (displayairports : Option (List String)) (now : Nat) :
    List String → List (String × StationCondition) × List String →
    List (String × StationCondition) × List String
  | [], st => st
  | ap :: rest, (dict, sl) =>
    if ap = "NULL" then registryStep displayairports now rest (dict, sl)
    else if (dictLookup dict ap).isSome then registryStep displayairports now rest (dict, sl)
    else
      registryStep displayairports now rest
        (dict ++ [(ap, placeholder now)],
         sl ++ (if eligibleForDisplay displayairports ap then [ap] else []))

/-- The registry after the merge: the condition dictionary (fetched
records plus placeholders) and the display station list. -/
def registry (cfg : Config) (fetched : List (String × StationCondition)) (now : Nat) :
    List (String × StationCondition) × List String :=
  registryStep cfg.displayairports now cfg.airports
    (fetched, fetchedStationList fetched cfg.displayairports)

/-- Spec-side count of the non-skip configured airports (the claim's
"non-skip airport count"). -/
def nonSkipCount (cfg : Config) : Nat :=
  (cfg.airports.filter (fun a => a != "NULL")).length

/-- The capacity check (lines 147–152): `if len(airports) > LED_COUNT:
... quit()`.  Note it counts every entry of the airports file, `"NULL"`
skip markers included. -/
def capacityCheckFails (cfg : Config) : Bool :=
  decide (cfg.ledCount < cfg.airports.length)

/-! ## Animation scheduler (lines 261–363) -/

/-- `looplimit = int(round(BLINK_TOTALTIME_SECONDS / BLINK_SPEED)) if
(ACTIVATE_WINDCONDITION_ANIMATION or ACTIVATE_LIGHTNING_ANIMATION or
ACTIVATE_EXTERNAL_METAR_DISPLAY) else 1` (line 261). -/
def looplimit (cfg : Config) : Int :=
  if cfg.activateWindAnimation || cfg.activateLightningAnimation ||
      cfg.activateExternalDisplay then
    roundHalfEven (cfg.blinkTotalTime / cfg.blinkSpeed)
  else 1

/-- The `while looplimit > 0` loop (lines 268–363) runs one tick per
iteration and decrements `looplimit`, so from an integer bound `l` it
executes exactly `l.toNat` ticks; `runTicksN` lists the `windCycle` value
each tick observes (the toggle `windCycle = False if windCycle else True`
happens at the end of the tick body, line 362, starting from `False`,
line 263). -/
def runTicksN : Nat → Bool → List Bool
  | 0, _ => []
  | n + 1, wc => wc :: runTicksN n (!wc)

/-- The per-tick `windCycle` phases the loop runs through. -/
def tickPhases (cfg : Config) : List Bool :=
  runTicksN (looplimit cfg).toNat false

/-- The station for-loop of one tick (lines 269–333), from list position
`i` on: `"NULL"` entries do `i += 1; continue` (no pixel write, but the
index advances); every other entry writes `pixels[i] = color` and
advances. -/
def stationWritesAux (cfg : Config) (dict : List (String × StationCondition))
    (windCycle : Bool) : List String → Nat → List (Nat × RGB)
  | [], _ => []
  | a :: rest, i =>
    if a = "NULL" then stationWritesAux cfg dict windCycle rest (i + 1)
    else (i, ledColor cfg (dictLookup dict a) windCycle) ::
      stationWritesAux cfg dict windCycle rest (i + 1)

/-- All pixel writes of one tick's station loop (starting at `i = 0`). -/
def stationWrites (cfg : Config) (dict : List (String × StationCondition))
    (windCycle : Bool) : List (Nat × RGB) :=
  stationWritesAux cfg dict windCycle cfg.airports 0

/-- The legend writes of one tick (lines 336–346).  After the station
loop, `i == len(airports)` (it was incremented for every entry, `"NULL"`
included); the legend occupies `i + OFFSET_LEGEND_BY` through
`i + OFFSET_LEGEND_BY + 6` depending on the enabled toggles. -/
def legendWrites (cfg : Config) (windCycle : Bool) : List (Nat × RGB) :=
  if cfg.showLegend then
    let i := cfg.airports.length
    let off := cfg.offsetLegendBy
    [(i + off, COLOR_VFR), (i + off + 1, COLOR_MVFR),
     (i + off + 2, COLOR_IFR), (i + off + 3, COLOR_LIFR)] ++
    (if cfg.activateLightningAnimation then
      [(i + off + 4, if windCycle then COLOR_LIGHTNING else COLOR_VFR)] else []) ++
    (if cfg.activateWindAnimation then
      [(i + off + 5, if !windCycle then COLOR_VFR
        else (if cfg.fadeInsteadOfBlink then COLOR_VFR_FADE else COLOR_CLEAR))] ++
      (if cfg.highWindsThreshold != -1 then
        [(i + off + 6, if !windCycle then COLOR_VFR else COLOR_HIGH_WINDS)] else [])
     else [])
  else []

/-- The external-display access of the first tick (lines 352–359), given
the initial rotation state `displayTime = 0.0`, `displayAirportCounter =
0` (lines 264–265): the branch taken reads `stationList[counter]`, modelled
as `List.get?` — `none` is an out-of-bounds access (Python `IndexError`). -/
def firstTickDisplayAccess (cfg : Config) (stationList : List String) : Option String :=
  if (0 : ℚ) ≤ cfg.displayRotationSpeed then stationList.get? 0
  else
    let numAirports : Int := stationList.length
    let counter : Nat := if (0 : Int) < numAirports - 1 then 1 else 0
    stationList.get? counter

/-- The configuration error raised before rendering. -/
inductive ConfigError where
  | tooManyAirports : ConfigError
deriving DecidableEq, Repr

/-- One rendered frame: the pixel writes of a tick, in order. -/
def tickFrame (cfg : Config) (dict : List (String × StationCondition))
    (windCycle : Bool) : List (Nat × RGB) :=
  stationWrites cfg dict windCycle ++ legendWrites cfg windCycle

/-- The whole run: the capacity check happens before anything is rendered
(lines 147–152); on success the registry is built and the scheduler
produces one frame per tick. -/
def runProgram (cfg : Config) (fetched : List (String × StationCondition))
    (now : Nat) : Except ConfigError (List (List (Nat × RGB))) :=
  if capacityCheckFails cfg then Except.error ConfigError.tooManyAirports
  else
    let dict := (registry cfg fetched now).1
    Except.ok ((tickPhases cfg).map (tickFrame cfg dict))

/-- The first tick's external-display step: `none` when the display is
disabled, `some acc` when it runs the rotation branch and `acc` is the
station-list access it performs (`acc = none` models the `IndexError` of
indexing an empty list). -/
def firstTickDisplayStep (cfg : Config) (stationList : List String) :
    Option (Option String) :=
  if cfg.activateExternalDisplay then some (firstTickDisplayAccess cfg stationList)
  else none

/-! ## Concrete configurations and records used in witnesses and
counterexamples -/

/-- A baseline configuration mirroring the source's configuration block
(lines 46–90). -/
def cfgBase : Config :=
  { ledCount := 30
    airports := []
    displayairports := none
    activateWindAnimation := true
    activateLightningAnimation := true
    fadeInsteadOfBlink := true
    windBlinkThreshold := 15
    highWindsThreshold := 25
    alwaysBlinkForGusts := false
    blinkSpeed := 1
    blinkTotalTime := 300
    activateExternalDisplay := false
    displayRotationSpeed := 5
    showLegend := true
    offsetLegendBy := 0 }

/-- A concrete VFR station record. -/
def stVFR : StationCondition :=
  { flightCategory := "VFR"
    windDir := "270"
    windSpeed := 20
    windGustSpeed := 0
    windGust := false
    vis := 10
    obs := ""
    tempC := 0
    dewpointC := 0
    altimHg := 0
    lightning := false
    skyConditions := []
    obsTime := 0 }

/-- A station record with an unrecognized flight category. -/
def stUnknown : StationCondition := { stVFR with flightCategory := "XYZ" }

def cfgC2 : Config := { cfgBase with airports := ["AAAA"] }

def cfgC6 : Config := { cfgBase with blinkTotalTime := 5, blinkSpeed := 4 }

def cfgC7 : Config := { cfgBase with ledCount := 1, airports := ["NULL", "AAAA"] }

def cfgC8 : Config := { cfgBase with airports := ["NULL", "AAAA"] }

def cfgC9 : Config := { cfgBase with ledCount := 1, airports := ["AAAA"] }

def cfgC10 : Config :=
  { cfgBase with activateExternalDisplay := true, airports := ["NULL"] }

/-! ## Helper lemmas -/

lemma dictLookup_append_left {d1 : List (String × StationCondition)}
    (d2 : List (String × StationCondition)) {k : String} {v : StationCondition}
    (h : dictLookup d1 k = some v) : dictLookup (d1 ++ d2) k = some v := by
  induction d1 with
  | nil => simp [dictLookup] at h
  | cons p rest ih =>
    obtain ⟨a, b⟩ := p
    by_cases hk : a = k
    · simp [dictLookup, hk] at h ⊢; exact h
    · simp [dictLookup, hk] at h ⊢; exact ih h

lemma dictLookup_append_right {d1 : List (String × StationCondition)}
    (d2 : List (String × StationCondition)) {k : String}
    (h : dictLookup d1 k = none) : dictLookup (d1 ++ d2) k = dictLookup d2 k := by
  induction d1 with
  | nil => simp
  | cons p rest ih =>
    obtain ⟨a, b⟩ := p
    by_cases hk : a = k
    · simp [dictLookup, hk] at h
    · simp [dictLookup, hk] at h ⊢; exact ih h

lemma registryStep_lookup_mono (da : Option (List String)) (now : Nat) (ap : String)
    (v : StationCondition) :
    ∀ (l : List String) (dict : List (String × StationCondition)) (sl : List String),
      dictLookup dict ap = some v →
      dictLookup (registryStep da now l (dict, sl)).1 ap = some v := by
  intro l
  induction l with
  | nil => intro dict sl h; simpa [registryStep] using h
  | cons a rest ih =>
    intro dict sl h
    by_cases hn : a = "NULL"
    · simpa [registryStep, hn] using ih dict sl h
    · by_cases hs : (dictLookup dict a).isSome
      · simpa [registryStep, hn, hs] using ih dict sl h
      · rw [registryStep]
        simp only [if_neg hn, hs, Bool.false_eq_true, if_false]
        exact ih _ _ (dictLookup_append_left _ h)

lemma registryStep_lookup_placeholder (da : Option (List String)) (now : Nat) (ap : String) :
    ∀ (l : List String) (dict : List (String × StationCondition)) (sl : List String),
      ap ∈ l → ap ≠ "NULL" →
      (dictLookup dict ap = none ∨ dictLookup dict ap = some (placeholder now)) →
      dictLookup (registryStep da now l (dict, sl)).1 ap = some (placeholder now) := by
  intro l
  induction l with
  | nil => intro dict sl h; simp at h
  | cons a rest ih =>
    intro dict sl hmem hnull hd
    by_cases hn : a = "NULL"
    · have : ap ∈ rest := by
        rcases List.mem_cons.mp hmem with h1 | h1
        · exact absurd (h1 ▸ hn) hnull
        · exact h1
      simpa [registryStep, hn] using ih dict sl this hnull hd
    · by_cases hs : (dictLookup dict a).isSome
      · rw [registryStep]
        simp only [if_neg hn, hs, if_true]
        by_cases ha : ap = a
        · subst ha
          rcases hd with h1 | h1
          · rw [h1] at hs; simp at hs
          · exact registryStep_lookup_mono da now ap _ rest dict sl h1
        · have : ap ∈ rest := by
            rcases List.mem_cons.mp hmem with h1 | h1
            · exact absurd h1 ha
            · exact h1
          exact ih dict sl this hnull hd
      · rw [registryStep]
        simp only [if_neg hn, hs, Bool.false_eq_true, if_false]
        by_cases ha : ap = a
        · subst ha
          have hnone : dictLookup dict ap = none := by
            cases hh : dictLookup dict ap with
            | none => rfl
            | some v => rw [hh] at hs; simp at hs
          have : dictLookup (dict ++ [(ap, placeholder now)]) ap = some (placeholder now) := by
            rw [dictLookup_append_right _ hnone]; simp [dictLookup]
          exact registryStep_lookup_mono da now ap _ rest _ _ this
        · have hmem' : ap ∈ rest := by
            rcases List.mem_cons.mp hmem with h1 | h1
            · exact absurd h1 ha
            · exact h1
          have hd' : dictLookup (dict ++ [(a, placeholder now)]) ap = none ∨
              dictLookup (dict ++ [(a, placeholder now)]) ap = some (placeholder now) := by
            rcases hd with h1 | h1
            · left; rw [dictLookup_append_right _ h1]
              have hne : a ≠ ap := fun h => ha h.symm
              simp [dictLookup, hne]
            · right; exact dictLookup_append_left _ h1
          exact ih _ _ hmem' hnull hd'

lemma ledColor_none_category (cfg : Config) (c : StationCondition) (wc : Bool)
    (h : c.flightCategory = "NONE") : ledColor cfg (some c) wc = COLOR_NONE := by
  simp [ledColor, h]

lemma pyFindL_eq_neg_one (s sub : List Char) (start : Nat) (hsub : sub ≠ []) :
    pyFindL s sub start = -1 ↔ ¬ OccursFrom s sub start := by
  unfold pyFindL
  cases hf : (List.range (s.length + 1)).find?
      (fun i => decide (start ≤ i) && sub.isPrefixOf (s.drop i)) with
  | some i =>
    have hp := List.find?_some hf
    simp only [Bool.and_eq_true, decide_eq_true_eq,
      List.isPrefixOf_iff_prefix] at hp
    show (i : Int) = -1 ↔ ¬ OccursFrom s sub start
    constructor
    · intro h; exfalso; omega
    · intro h; exact absurd ⟨i, hp.1, hp.2⟩ h
  | none =>
    rw [List.find?_eq_none] at hf
    show (-1 : Int) = -1 ↔ ¬ OccursFrom s sub start
    constructor
    · rintro - ⟨i, hstart, hpre⟩
      by_cases hi : i ≤ s.length
      · exact hf i (by simp [List.mem_range]; omega)
          (by simp [ List.isPrefixOf_iff_prefix]; exact ⟨hstart, hpre⟩)
      · have : s.drop i = [] := List.drop_eq_nil_of_le (by omega)
        rw [this] at hpre
        exact hsub (List.prefix_nil.mp hpre)
    · intro h; rfl

lemma runTicksN_length : ∀ (n : Nat) (wc : Bool), (runTicksN n wc).length = n := by
  intro n
  induction n with
  | zero => intro wc; rfl
  | succ k ih => intro wc; simp [runTicksN, ih]

lemma stationWritesAux_eq (cfg : Config) (dict : List (String × StationCondition))
    (wc : Bool) :
    ∀ (l : List String) (i : Nat),
      stationWritesAux cfg dict wc l i =
        ((List.enumFrom i l).filter (fun p => p.2 != "NULL")).map
          (fun p => (p.1, ledColor cfg (dictLookup dict p.2) wc)) := by
  intro l
  induction l with
  | nil => intro i; rfl
  | cons a rest ih =>
    intro i
    by_cases h : a = "NULL"
    · simp [stationWritesAux, h, List.enumFrom, ih]
    · simp [stationWritesAux, h, List.enumFrom, ih]

lemma registryStep_sl_all_null (da : Option (List String)) (now : Nat) :
    ∀ (l : List String) (dict : List (String × StationCondition)) (sl : List String),
      (∀ a ∈ l, a = "NULL") → (registryStep da now l (dict, sl)).2 = sl := by
  intro l
  induction l with
  | nil => intro dict sl _; rfl
  | cons a rest ih =>
    intro dict sl h
    have ha : a = "NULL" := h a (List.mem_cons_self a rest)
    simp only [registryStep, if_pos ha]
    exact ih dict sl (fun x hx => h x (List.mem_cons_of_mem a hx))

/-! ## Claim theorems -/

/-- C1: For every station record with a recognized flight category (VFR,
MVFR, IFR or LIFR), every animation phase and every configuration, the
color selection equals the spec's factored priority chain (lightning color
if lightningActive; else high-wind color if highWinds; else the category's
fade color when fade mode is enabled, the off color otherwise, if windy;
else the category's base color), and any unrecognized category (not one of
the four or NONE) yields the off color. -/
theorem decision_engine_matches_spec (cfg : Config) (c : StationCondition) (wc : Bool) :
    ((c.flightCategory = "VFR" ∨ c.flightCategory = "MVFR" ∨
      c.flightCategory = "IFR" ∨ c.flightCategory = "LIFR") →
      ledColor cfg (some c) wc = specColor cfg c wc) ∧
    ((c.flightCategory ≠ "VFR" ∧ c.flightCategory ≠ "MVFR" ∧
      c.flightCategory ≠ "IFR" ∧ c.flightCategory ≠ "LIFR" ∧
      c.flightCategory ≠ "NONE") →
      ledColor cfg (some c) wc = COLOR_CLEAR) := by
  constructor
  · rintro (h | h | h | h) <;>
      simp [ledColor, specColor, h, baseColor, fadeColorOf]
  · rintro ⟨h1, h2, h3, h4, h5⟩
    simp [ledColor, h1, h2, h3, h4, h5]

/-- C1 witness: the theorem applied to a concrete VFR record and a record
with category "XYZ". -/
theorem decision_engine_matches_spec_witness :
    (stVFR.flightCategory = "VFR" ∨ stVFR.flightCategory = "MVFR" ∨
      stVFR.flightCategory = "IFR" ∨ stVFR.flightCategory = "LIFR") ∧
    ledColor cfgBase (some stVFR) true = specColor cfgBase stVFR true ∧
    ledColor cfgBase (some stUnknown) true = COLOR_CLEAR :=
  ⟨Or.inl rfl,
   (decision_engine_matches_spec cfgBase stVFR true).1 (Or.inl rfl),
   (decision_engine_matches_spec cfgBase stUnknown true).2
     ⟨by decide, by decide, by decide, by decide, by decide⟩⟩

/-- C2: every configured non-skip airport absent from the fetched set gets
the synthesized placeholder record (category NONE, zero numeric fields,
empty strings and sequences, observation time = construction time), and
every record with category NONE renders as the fixed "none" color on every
phase, regardless of the other fields and of the configuration. -/
theorem registry_placeholder_and_none_color (cfg : Config)
    (fetched : List (String × StationCondition)) (now : Nat) (ap : String)
    (c : StationCondition) (wc : Bool) :
    (ap ∈ cfg.airports → ap ≠ "NULL" → dictLookup fetched ap = none →
      dictLookup (registry cfg fetched now).1 ap =
        some { flightCategory := "NONE", windDir := "", windSpeed := 0,
               windGustSpeed := 0, windGust := false, vis := 0, obs := "",
               tempC := 0, dewpointC := 0, altimHg := 0, lightning := false,
               skyConditions := [], obsTime := now }) ∧
    (c.flightCategory = "NONE" → ledColor cfg (some c) wc = COLOR_NONE) := by
  constructor
  · intro h1 h2 h3
    exact registryStep_lookup_placeholder cfg.displayairports now ap cfg.airports
      fetched _ h1 h2 (Or.inl h3)
  · exact ledColor_none_category cfg c wc

/-- C2 witness: the theorem applied to a configuration with the single
airport "AAAA", an empty fetch and build time 7. -/
theorem registry_placeholder_and_none_color_witness :
    dictLookup (registry cfgC2 [] 7).1 "AAAA" =
      some { flightCategory := "NONE", windDir := "", windSpeed := 0,
             windGustSpeed := 0, windGust := false, vis := 0, obs := "",
             tempC := 0, dewpointC := 0, altimHg := 0, lightning := false,
             skyConditions := [], obsTime := 7 } ∧
    ledColor cfgC2 (some (placeholder 7)) true = COLOR_NONE :=
  ⟨(registry_placeholder_and_none_color cfgC2 [] 7 "AAAA" (placeholder 7) true).1
      (by decide) (by decide) rfl,
   (registry_placeholder_and_none_color cfgC2 [] 7 "AAAA" (placeholder 7) true).2 rfl⟩

/-- C3: the claim says the normalizer helpers never raise; `safe_int` does
raise.  On an element whose text is `"inf"`, `float` succeeds (returning
infinity) and `round` then raises `OverflowError`, which the
`except (ValueError, TypeError)` clause does not catch, so `safe_int`
propagates an exception instead of returning the default. -/
theorem safe_int_inf_uncaught_overflow :
    safe_int (some (some "inf")) 0 = Except.error PyErr.overflowError := rfl

/-- C4: the windy and high-winds flags are false on every tick whose
windCycle is false, the lightning flag is false on every tick whose
windCycle is true, and on no tick are the lightning flag and the windy
flag simultaneously true — so lightning-derived and wind-derived colors
never share a windCycle value. -/
theorem flags_phase_exclusive (cfg : Config) (c : StationCondition) (wc : Bool) :
    windyFlag cfg c false = false ∧ highWindsFlag cfg c false = false ∧
    lightningCondFlag cfg c true = false ∧
    (lightningCondFlag cfg c wc && windyFlag cfg c wc) = false := by
  refine ⟨?_, ?_, ?_, ?_⟩ <;> cases wc <;>
    simp [windyFlag, highWindsFlag, lightningCondFlag]

/-- C5: the builder's lightning flag is true iff "LTG" or "TS" occurs in
the raw text at some index ≥ 4 and "TSNO" occurs at no index ≥ 4; in
particular the raw text "KXYZ TSNO 1200Z..." yields a false flag even
though it contains "TS". -/
theorem lightning_flag_iff :
    (∀ raw : String, lightningHeuristic raw = true ↔
      ((OccursFrom raw.data "LTG".data 4 ∨ OccursFrom raw.data "TS".data 4) ∧
        ¬ OccursFrom raw.data "TSNO".data 4)) ∧
    lightningHeuristic "KXYZ TSNO 1200Z..." = false := by
  constructor
  · intro raw
    have hL := pyFindL_eq_neg_one raw.data "LTG".data 4 (by decide)
    have hT := pyFindL_eq_neg_one raw.data "TS".data 4 (by decide)
    have hN := pyFindL_eq_neg_one raw.data "TSNO".data 4 (by decide)
    simp only [lightningHeuristic, Bool.not_eq_true', Bool.or_eq_false_iff,
      Bool.and_eq_false_iff, beq_eq_false_iff_ne, ne_eq, bne_eq_false_iff_eq]
    rw [hN, hL, hT]
    tauto
  · decide

/-- C6 (amended): the scheduler executes exactly
`round(totalBlinkSeconds / blinkSpeedSeconds)` ticks (Python banker's
rounding, clamped at zero) when wind animation, lightning animation or the
secondary display is enabled, and exactly 1 tick otherwise; with
totalBlinkSeconds = 300 and blinkSpeedSeconds = 1.0 and any animation
enabled it executes exactly 300 ticks. -/
theorem scheduler_tick_budget (cfg : Config) :
    (tickPhases cfg).length =
      (if cfg.activateWindAnimation || cfg.activateLightningAnimation ||
          cfg.activateExternalDisplay then
        (roundHalfEven (cfg.blinkTotalTime / cfg.blinkSpeed)).toNat
      else 1) ∧
    (cfg.blinkTotalTime = 300 → cfg.blinkSpeed = 1 →
      (cfg.activateWindAnimation || cfg.activateLightningAnimation ||
        cfg.activateExternalDisplay) = true →
      (tickPhases cfg).length = 300) := by
  have hlen : (tickPhases cfg).length = (looplimit cfg).toNat := by
    simp [tickPhases, runTicksN_length]
  constructor
  · rw [hlen]
    by_cases h : (cfg.activateWindAnimation || cfg.activateLightningAnimation ||
        cfg.activateExternalDisplay) = true
    · simp [looplimit, h]
    · simp only [Bool.not_eq_true] at h
      simp [looplimit, h]
  · intro h1 h2 h3
    rw [hlen, looplimit, if_pos h3, h1, h2]
    have h300 : (300 : ℚ) / 1 = mkRat 300 1 := by norm_num [Rat.mkRat_eq_div]
    rw [h300]
    decide

/-- C6 witness: the theorem applied to the baseline configuration
(animations enabled, 300 s total, 1.0 s per blink). -/
theorem scheduler_tick_budget_witness :
    cfgBase.blinkTotalTime = 300 ∧ cfgBase.blinkSpeed = 1 ∧
    (cfgBase.activateWindAnimation || cfgBase.activateLightningAnimation ||
      cfgBase.activateExternalDisplay) = true ∧
    (tickPhases cfgBase).length = 300 :=
  ⟨rfl, rfl, rfl, (scheduler_tick_budget cfgBase).2 rfl rfl rfl⟩

/-- C6 counterexample: with totalBlinkSeconds = 5 and blinkSpeedSeconds =
4.0 and animations enabled, the scheduler executes 1 tick, while the
claim's `ceil(totalBlinkSeconds / blinkSpeedSeconds)` is 2. -/
theorem scheduler_tick_budget_not_ceil :
    (tickPhases cfgC6).length = 1 ∧
    ((cfgC6.blinkTotalTime / cfgC6.blinkSpeed).ceil).toNat = 2 ∧
    (tickPhases cfgC6).length ≠ ((cfgC6.blinkTotalTime / cfgC6.blinkSpeed).ceil).toNat := by
  have h54 : (5 : ℚ) / 4 = mkRat 5 4 := by norm_num [Rat.mkRat_eq_div]
  have hdiv : cfgC6.blinkTotalTime / cfgC6.blinkSpeed = mkRat 5 4 := h54
  have h1 : (tickPhases cfgC6).length = 1 := by
    have : looplimit cfgC6 = 1 := by
      rw [looplimit, if_pos (by decide), hdiv]; decide
    simp [tickPhases, this, runTicksN_length]
  have h2 : ((cfgC6.blinkTotalTime / cfgC6.blinkSpeed).ceil).toNat = 2 := by
    rw [hdiv]; decide
  exact ⟨h1, h2, by rw [h1, h2]; decide⟩

/-- C7 (amended): the run fails with the configuration error, before any
pixel write, exactly when the total number of configured airport entries —
skip markers included, since each occupies an LED index — exceeds the LED
count. -/
theorem capacity_check_exact (cfg : Config) (fetched : List (String × StationCondition))
    (now : Nat) :
    runProgram cfg fetched now = Except.error ConfigError.tooManyAirports ↔
      cfg.ledCount < cfg.airports.length := by
  by_cases h : cfg.ledCount < cfg.airports.length <;>
    simp [runProgram, capacityCheckFails, h]

/-- C7 counterexample: a configuration with one non-skip airport, one skip
marker and one LED has its non-skip count within the LED count, yet
registry construction fails — the source checks `len(airports)`, skip
markers included. -/
theorem capacity_check_counts_skip_markers :
    nonSkipCount cfgC7 ≤ cfgC7.ledCount ∧
    runProgram cfgC7 [] 0 = Except.error ConfigError.tooManyAirports := by
  refine ⟨by decide, ?_⟩
  rfl

/-- C8 (amended): on every tick, the airport at position k of the
configured list (skip markers counted) is rendered to LED index k; skip
markers receive no pixel write but still occupy their LED index, so
non-skip airports keep their absolute list positions, with gaps at skip
markers. -/
theorem station_writes_by_list_position (cfg : Config)
    (dict : List (String × StationCondition)) (wc : Bool) :
    stationWrites cfg dict wc =
      ((cfg.airports.enum.filter (fun p => p.2 != "NULL")).map
        (fun p => (p.1, ledColor cfg (dictLookup dict p.2) wc))) := by
  rw [stationWrites, stationWritesAux_eq, List.enum]

/-- C8 counterexample: with airports = ["NULL", "AAAA"], the only pixel
write of a tick targets LED 1 — the 0th non-skip airport "AAAA" is not
written to LED 0, contrary to the claim's packed indexing. -/
theorem station_write_skips_occupy_indices :
    stationWrites cfgC8 [] false = [(1, COLOR_CLEAR)] ∧
    (∀ col : RGB, (0, col) ∉ stationWrites cfgC8 [] false) := by
  refine ⟨rfl, ?_⟩
  intro col h
  rw [show stationWrites cfgC8 [] false = [(1, COLOR_CLEAR)] from rfl] at h
  simp at h

/-- C9: the capacity validation ignores the legend; a configuration whose
airport list has exactly LED-count entries passes the check, yet with the
legend enabled the legend step writes pixel index ledCount + offset, which
is at or beyond the LED count — outside the sink's valid range. -/
theorem legend_writes_beyond_capacity (cfg : Config) (wc : Bool)
    (h1 : cfg.showLegend = true) (h2 : cfg.airports.length = cfg.ledCount) :
    capacityCheckFails cfg = false ∧
    (cfg.ledCount + cfg.offsetLegendBy, COLOR_VFR) ∈ legendWrites cfg wc ∧
    cfg.ledCount ≤ cfg.ledCount + cfg.offsetLegendBy := by
  refine ⟨?_, ?_, Nat.le_add_right _ _⟩
  · simp [capacityCheckFails, h2]
  · simp only [legendWrites, h1, if_true, h2]
    simp

/-- C9 witness: the theorem applied to a configuration with one LED, one
airport and the legend enabled. -/
theorem legend_writes_beyond_capacity_witness :
    cfgC9.showLegend = true ∧ cfgC9.airports.length = cfgC9.ledCount ∧
    (capacityCheckFails cfgC9 = false ∧
      (cfgC9.ledCount + cfgC9.offsetLegendBy, COLOR_VFR) ∈ legendWrites cfgC9 false ∧
      cfgC9.ledCount ≤ cfgC9.ledCount + cfgC9.offsetLegendBy) :=
  ⟨rfl, rfl, legend_writes_beyond_capacity cfgC9 false rfl rfl⟩

/-- C10: with the secondary display enabled and an empty eligible station
list (here: every configured airport is a skip marker and the fetch is
empty), the first tick's display step indexes the empty station list and
faults — nothing guards the rotation state against an empty list. -/
theorem display_rotation_empty_list_faults (cfg : Config)
    (fetched : List (String × StationCondition)) (now : Nat)
    (henabled : cfg.activateExternalDisplay = true)
    (hskip : ∀ a ∈ cfg.airports, a = "NULL") (hfetch : fetched = []) :
    (registry cfg fetched now).2 = [] ∧
    firstTickDisplayStep cfg (registry cfg fetched now).2 = some none := by
  have h2 : (registry cfg fetched now).2 = [] := by
    subst hfetch
    rw [registry, registryStep_sl_all_null _ _ _ _ _ hskip]
    simp [fetchedStationList]
  refine ⟨h2, ?_⟩
  rw [h2, firstTickDisplayStep, if_pos henabled]
  rw [firstTickDisplayAccess]
  split <;> simp

/-- C10 witness: the theorem applied to a configuration with the display
enabled and a single skip-marker airport. -/
theorem display_rotation_empty_list_faults_witness :
    cfgC10.activateExternalDisplay = true ∧
    ((registry cfgC10 [] 0).2 = [] ∧
      firstTickDisplayStep cfgC10 (registry cfgC10 [] 0).2 = some none) :=
  ⟨rfl, display_rotation_empty_list_faults cfgC10 [] 0 rfl (by decide) rfl⟩
